import Mathlib

/-!
Verification development for the Voter-Auth backend
(Quick-Genius/Voter-Auth).

The Python sources are shallowly embedded as Lean definitions:

* `src/backend/ml_models/face_recognition.py` — the face comparison and
  liveness decision logic (`compare_faces_basic`, `verify_face`,
  `verify_face_with_liveness`).  The pixel-level library calls
  (preprocessing, face detection, encoding extraction) are external
  collaborators; they are represented by the similarity score the
  comparison produces, or by an upstream error.
* `src/backend/ml_models/iris_recognition.py` — the per-eye and overall
  iris decision logic (`verify_iris`).  Image processing is represented
  by the normalized Hamming distance each eye comparison produces.
* `src/backend/blockchain_integration.py` — the demo ledger
  (`_demo_record_verification`, `_generate_hash`, `verify_vote_integrity`).
  SHA-256 over the canonical JSON serialization (sorted keys, hash
  fields removed) is modelled as an injective function of the hashed
  fields, i.e. by the tuple of those fields itself; this captures
  determinism and collision-freeness of the digest.
* `src/backend/app.py` — the four Flask verification endpoints
  (`verify_voter_id`, `verify_face`, `verify_iris`, `cast_vote`), the
  SQL rows they mutate (`Voter`, `VoteRecord`, `FraudAttempt`) and the
  HTTP status codes they return.

Scores and thresholds are rationals (`ℚ`); the Python floats involved
(0.94, 0.3, 0.85, …) are all exactly representable.  `datetime.utcnow()`
readings are explicit `Nat` parameters, one per call site.
-/

namespace VoterAuth

/-! ### face_recognition.py: comparison outcome of the external encoder

`verify_face(stored, live)` first preprocesses the live image, detects a
face and extracts an encoding; any of these can fail (upstream error).
When they succeed, the library comparison yields a similarity score `s`
(with distance `1 - s`).  Both library branches of
`compare_faces_basic` (face_recognition distance, OpenCV cosine
fallback) compute `is_match` as `distance < 0.8`, i.e. `s > 0.2`. -/

inductive FaceEval : Type
  /-- preprocess / detect / encode failed inside `verify_face`. -/
  | err (msg : String)
  /-- the encoding comparison produced similarity `s`. -/
  | sim (s : ℚ)
deriving DecidableEq

/-- Result dictionary of `compare_faces_basic` (face_recognition.py,
lines 204-292), as a function of the similarity the library produced. -/
structure CompareResult where
  is_match : Bool
  similarity : ℚ
  distance : ℚ
  confidence : ℚ
deriving DecidableEq

/-- `compare_faces_basic` (face_recognition.py lines 237-282): the
library `is_match` is `distance < 0.8` (equivalently `s > 0.2` in both
branches), then the lenient overrides of lines 264-272 apply. -/
def compare_faces_basic (s : ℚ) : CompareResult :=
  let is_match0 : Bool := decide (s > 1/5)
  if s > 1/5 then
    -- confidence = min(1.0, confidence * 1.5); is_match = True
    ⟨true, s, 1 - s, min 1 (s * (3/2))⟩
  else if s > 1/10 then
    -- confidence = 0.5; is_match = True
    ⟨true, s, 1 - s, 1/2⟩
  else
    ⟨is_match0, s, 1 - s, s⟩

/-- Result of `verify_face` (the keys the callers read; on an upstream
error `success = false` and the callers' `.get(..., 0)` defaults
apply). -/
structure FaceResult where
  success : Bool
  verified : Bool
  confidence : ℚ
  similarity : ℚ
deriving DecidableEq

/-- `verify_face` (face_recognition.py lines 321-429): on upstream
failure return `success = False`; otherwise decide
`is_verified = is_match ∧ confidence ≥ 0.2`, then force a pass whenever
`similarity > 0.1` (lines 394-404). -/
def verify_face : FaceEval → FaceResult
  | .err _ => ⟨false, false, 0, 0⟩
  | .sim s =>
    let cr := compare_faces_basic s
    let is_verified := cr.is_match && decide (cr.confidence ≥ 1/5)
    if !is_verified && decide (cr.similarity > 1/10) then
      ⟨true, true, 1/2, cr.similarity⟩
    else
      ⟨true, is_verified, cr.confidence, cr.similarity⟩

/-- The `liveness_data` request field: `headMovement`, `blinkCount` and
the client-reported `score`.  An absent or empty dict is falsy in
Python, so both are modelled as `Option.none`. -/
structure LivenessData where
  headMovement : Bool
  blinkCount : Nat
  score : ℚ
deriving DecidableEq

/-- Liveness score computation of `verify_face_with_liveness`
(face_recognition.py lines 530-556): 0.3 for head movement, 0.4 for two
or more blinks (0.2 for one), plus 0.3 times the client-reported score.
No cap is applied. -/
def liveness_score : Option LivenessData → ℚ
  | none => 0
  | some d =>
    let s1 : ℚ := if d.headMovement then 3/10 else 0
    let s2 : ℚ := if d.blinkCount ≥ 2 then 4/10 else if d.blinkCount ≥ 1 then 2/10 else 0
    s1 + s2 + d.score * (3/10)

/-- Result of `verify_face_with_liveness` (the keys app.py reads). -/
structure LivenessResult where
  success : Bool
  verified : Bool
  face_confidence : ℚ
  liveness : ℚ
  confidence : ℚ
deriving DecidableEq

/-- `verify_face_with_liveness` (face_recognition.py lines 521-588):
run `verify_face`, compute the liveness score, and pass exactly when the
face was verified with confidence ≥ 0.94 and liveness ≥ 0.3. -/
def verify_face_with_liveness (ev : FaceEval) (ld : Option LivenessData) : LivenessResult :=
  let fr := verify_face ev
  if !fr.success then
    ⟨false, false, 0, 0, 0⟩
  else
    let ls := liveness_score ld
    let final := fr.verified && decide (fr.confidence ≥ 94/100) && decide (ls ≥ 3/10)
    ⟨true, final, fr.confidence, ls, if final then fr.confidence else 0⟩

/-! ### iris_recognition.py: per-eye evaluation -/

/-- Outcome of processing one eye inside `verify_iris`: either a failure
(region extraction, template creation, or missing/invalid stored
template) or a normalized Hamming distance from
`compare_iris_templates`. -/
inductive EyeEval : Type
  | fail (msg : String)
  | dist (d : ℚ)
deriving DecidableEq

/-- Outcome of the whole external pipeline for one call of
`verify_iris`: preprocessing / eye detection failure, or the two
per-eye outcomes (MediaPipe detection always reports both eyes). -/
inductive IrisEval : Type
  | err (msg : String)
  | eyes (left right : EyeEval)
deriving DecidableEq

/-- The successful per-eye result dictionary (iris_recognition.py lines
404-414). -/
structure EyeOk where
  verified : Bool
  similarity : ℚ
  distance : ℚ
  confidence : ℚ
deriving DecidableEq

/-- Per-eye decision (iris_recognition.py lines 354-414): an eye
verifies exactly when its distance is strictly below the eye-level
threshold `verification_threshold = 0.3`; its confidence is the
similarity `1 - d` when verified and `0.0` otherwise.  `none` models
the `success: False` entry recorded for a failed eye. -/
def eyeResult : EyeEval → Option EyeOk
  | .fail _ => none
  | .dist d => some ⟨decide (d < 3/10), 1 - d, d, if d < 3/10 then 1 - d else 0⟩

/-- Result of `verify_iris` (the keys app.py reads). -/
structure IrisResult where
  success : Bool
  verified : Bool
  confidence : ℚ
  left : Option EyeOk
  right : Option EyeOk
deriving DecidableEq

/-- `verify_iris` (iris_recognition.py lines 332-443): process both
eyes, collect the eyes that succeeded and verified, and report overall
`verified` iff at least one eye verified, with the highest confidence
among the verified eyes (`max(verified_eyes, key=confidence)`). -/
def iris_verify : IrisEval → IrisResult
  | .err _ => ⟨false, false, 0, none, none⟩
  | .eyes l r =>
    let resL := eyeResult l
    let resR := eyeResult r
    let verifiedConfs :=
      ((resL.toList ++ resR.toList).filter (·.verified)).map (·.confidence)
    match verifiedConfs with
    | [] => ⟨true, false, 0, resL, resR⟩
    | c :: cs => ⟨true, true, cs.foldl max c, resL, resR⟩

/-! ### blockchain_integration.py: the demo ledger

`demo_storage` is a Python dict holding one vote record per voter under
key `"vote_" + uuid`, one voter status under `"voter_" + uuid`, and
booth statistics under `"booth_stats_" + booth_id`.  We model each key
family as an association list keyed by the uuid (resp. booth id);
`dict.get` / assignment become lookup / insert-or-replace. -/

def lookupA {κ α : Type} [DecidableEq κ] : List (κ × α) → κ → Option α
  | [], _ => none
  | (k', v) :: t, k => if k' = k then some v else lookupA t k

def insertA {κ α : Type} [DecidableEq κ] : List (κ × α) → κ → α → List (κ × α)
  | [], k, v => [(k, v)]
  | (k', v') :: t, k, v => if k' = k then (k, v) :: t else (k', v') :: insertA t k v

/-- The fields of a demo vote record that `_generate_hash` serializes:
everything except `blockchain_hash` and `previous_hash` (which are
popped from the copy before hashing, lines 359-365). -/
structure HashedFields where
  voter_uuid : String
  voter_id : String
  polling_booth_id : Nat
  timestamp : Nat
  id_verified : Bool
  face_verified : Bool
  iris_verified : Bool
  vote_cast : Bool
deriving DecidableEq

/-- A digest value.  `payload f` is the SHA-256 of the canonical
serialization of `f` (modelled by `f` itself: the digest is a
deterministic injective function of the serialized fields).  `nonce n`
models the random fallback string `f"hash_{uuid4().hex[:16]}"` app.py
stores when the blockchain returned no hash. -/
inductive HashVal : Type
  | payload (f : HashedFields)
  | nonce (n : Nat)
deriving DecidableEq

/-- The demo vote record stored under `"vote_" + uuid`
(blockchain_integration.py lines 83-94). -/
structure BCVoteRecord where
  voter_uuid : String
  voter_id : String
  polling_booth_id : Nat
  timestamp : Nat
  id_verified : Bool
  face_verified : Bool
  iris_verified : Bool
  vote_cast : Bool
  blockchain_hash : Option HashVal
  previous_hash : Option HashVal
deriving DecidableEq

/-- `_generate_hash` (lines 349-369): digest of the record minus the
two hash fields. -/
def generate_hash (r : BCVoteRecord) : HashVal :=
  .payload ⟨r.voter_uuid, r.voter_id, r.polling_booth_id, r.timestamp,
            r.id_verified, r.face_verified, r.iris_verified, r.vote_cast⟩

/-- The voter status stored under `"voter_" + uuid` (lines 98-104). -/
structure BCVoterStatus where
  voter_uuid : String
  voter_id : String
  has_voted : Bool
  voted_at : Option Nat
  polling_booth_id : Nat
deriving DecidableEq

/-- The `demo_storage` dict, split by key family. -/
structure BCState where
  votes : List (String × BCVoteRecord)
  statuses : List (String × BCVoterStatus)
  boothStats : List (Nat × Nat)
deriving DecidableEq

/-- The empty `demo_storage` a fresh `BlockchainIntegration()` holds. -/
def BCState.empty : BCState := ⟨[], [], []⟩

/-- Return value of `record_vote_verification` (success flag,
`blockchain_hash`; the transaction id string is not claim-relevant). -/
structure BCResult where
  success : Bool
  blockchain_hash : Option HashVal
deriving DecidableEq

/-- The three `datetime.utcnow()` call sites inside
`_demo_record_verification`: the default-record timestamp (line 87,
evaluated eagerly as the `dict.get` default), `voted_at` (line 129) and
the final timestamp overwrite (line 139). -/
structure BCTimes where
  tDefault : Nat
  tVoted : Nat
  tFinal : Nat
deriving DecidableEq

/-- `_update_booth_stats` (lines 335-347). -/
def update_booth_stats (l : List (Nat × Nat)) (booth_id : Nat) : List (Nat × Nat) :=
  let total := (lookupA l booth_id).getD 0
  insertA l booth_id (total + 1)

/-- Lines 137-155 of `_demo_record_verification`: hash over the record
as it stands (still carrying its old timestamp), then overwrite the
timestamp with a fresh `utcnow()` reading, store both records, and bump
the booth statistics when the step was a vote cast. -/
def demo_store (st : BCState) (vr : BCVoteRecord) (vs : BCVoterStatus)
    (bt : BCTimes) (isCast : Bool) : BCState × BCResult :=
  let h := generate_hash vr
  let vr' := { vr with blockchain_hash := some h, timestamp := bt.tFinal }
  let st' : BCState :=
    { votes := insertA st.votes vr.voter_uuid vr',
      statuses := insertA st.statuses vs.voter_uuid vs,
      boothStats := if isCast then update_booth_stats st.boothStats vr.polling_booth_id
                    else st.boothStats }
  (st', ⟨true, some h⟩)

/-- `_demo_record_verification` (blockchain_integration.py lines
77-155), with `demo_mode = True` this is also the body of
`record_vote_verification`.  Failure branches return without storing.
Note the order of lines 137-139: the digest is computed while the
record still carries its previous timestamp, and only afterwards is the
timestamp overwritten with a fresh `utcnow()` reading. -/
def demo_record_verification (st : BCState) (voter_uuid voter_id : String)
    (booth_id : Nat) (step : String) (bt : BCTimes) : BCState × BCResult :=
  let vote_record := (lookupA st.votes voter_uuid).getD
    ⟨voter_uuid, voter_id, booth_id, bt.tDefault, false, false, false, false, none, none⟩
  let voter_status := (lookupA st.statuses voter_uuid).getD
    ⟨voter_uuid, voter_id, false, none, booth_id⟩
  -- line 106: already-voted check, skipped for the 'vote_cast' step
  if voter_status.has_voted ∧ step ≠ "vote_cast" then
    (st, ⟨false, none⟩)
  else if step = "id_verification" then
    demo_store st { vote_record with id_verified := true } voter_status bt false
  else if step = "face_verification" then
    demo_store st { vote_record with face_verified := true } voter_status bt false
  else if step = "iris_verification" then
    demo_store st { vote_record with iris_verified := true } voter_status bt false
  else if step = "vote_cast" then
    if vote_record.id_verified ∧ vote_record.face_verified ∧ vote_record.iris_verified then
      demo_store st { vote_record with vote_cast := true }
        { voter_status with has_voted := true, voted_at := some bt.tVoted } bt true
    else
      (st, ⟨false, none⟩)
  else
    (st, ⟨false, none⟩)

/-- `verify_vote_integrity` (blockchain_integration.py lines 263-286):
recompute the digest of the stored record and compare it with the
stored `blockchain_hash` (a missing record or a `None` hash compares
unequal). -/
def verify_vote_integrity (st : BCState) (voter_uuid : String) : Bool :=
  match lookupA st.votes voter_uuid with
  | none => false
  | some r =>
    match r.blockchain_hash with
    | none => false
    | some h => h = generate_hash r

/-! ### app.py: SQL rows and the four verification endpoints

The SQLAlchemy tables are modelled as lists of rows; `query.filter_by(...).first()`
becomes "first row satisfying the filter", updates rewrite that first
row in place.  HTTP responses are reduced to their status code
(200 success, 400 validation / ordering error, 403 conflict or
threshold rejection, 404 not found).  Free-text `details` strings of
fraud rows are not modelled. -/

/-- A `Voter` row (app.py lines 63-84; the columns the endpoints
read or write). -/
structure Voter where
  voter_id : String
  uuid : String
  name : String
  polling_booth_id : Nat
  face_encoding : Option String
  iris_template : Option String
  has_voted : Bool
  voted_at : Option Nat
deriving DecidableEq

/-- A `VoteRecord` row (app.py lines 86-103). -/
structure VoteRecord where
  voter_uuid : String
  voter_id : String
  polling_booth_id : Nat
  id_verified : Bool
  face_verified : Bool
  iris_verified : Bool
  blockchain_hash : Option HashVal
  verification_completed : Option Nat
  vote_cast_at : Option Nat
deriving DecidableEq

/-- A `FraudAttempt` row (app.py lines 105-111); the free-text
`details` column is not modelled. -/
structure FraudAttempt where
  voter_id : String
  attempted_booth_id : Nat
  fraud_type : String
deriving DecidableEq

/-- The mutable backend state: the three SQL tables plus the demo
blockchain storage. -/
structure AppState where
  voters : List Voter
  vote_records : List VoteRecord
  frauds : List FraudAttempt
  bc : BCState
deriving DecidableEq

/-- Rewrite the first row satisfying `p` with `f` (SQLAlchemy mutation
of the row returned by `.filter_by(...).first()`). -/
def updateFirst {α : Type} (p : α → Bool) (f : α → α) : List α → List α
  | [] => []
  | x :: xs => if p x then f x :: xs else x :: updateFirst p f xs

/-- `Voter.query.filter_by(uuid=...).first()`. -/
def findVoterByUuid (st : AppState) (u : String) : Option Voter :=
  st.voters.find? (·.uuid = u)

/-- `VoteRecord.query.filter_by(voter_uuid=...).first()`. -/
def findRecordByUuid (st : AppState) (u : String) : Option VoteRecord :=
  st.vote_records.find? (·.voter_uuid = u)

/-- Python `str.upper()` as used on voter ids (app.py line 175): ASCII
case folding, character by character. -/
def upperStr (s : String) : String := ⟨s.data.map Char.toUpper⟩

/-- Lines 183-245 of `verify_voter_id`: directory lookup, duplicate-vote
check, record creation/update, blockchain append. -/
def id_lookup (st : AppState) (vid : String) (booth : Nat) (bt : BCTimes) :
    AppState × Nat :=
  match st.voters.find? (fun v => v.voter_id = vid ∧ v.polling_booth_id = booth) with
  | none => (st, 404)
  | some voter =>
    if voter.has_voted then
      ({ st with frauds := st.frauds ++ [⟨vid, booth, "duplicate_vote"⟩] }, 403)
    else
      let hasRecord := (st.vote_records.find?
        (fun r => r.voter_uuid = voter.uuid ∧ r.polling_booth_id = booth)).isSome
      let records' :=
        if hasRecord then
          updateFirst (fun r => r.voter_uuid = voter.uuid ∧ r.polling_booth_id = booth)
            (fun r => { r with id_verified := true }) st.vote_records
        else
          st.vote_records ++
            [⟨voter.uuid, vid, booth, true, false, false, none, none, none⟩]
      let (bc', _) := demo_record_verification st.bc voter.uuid vid booth
        "id_verification" bt
      ({ st with vote_records := records', bc := bc' }, 200)

/-- `/api/voter/verify-id` (app.py lines 149-248).  The uploaded
id-card image is an external collaborator: it is represented by the
outcome of `ocr_processor.process_voter_id_card` — an error, or the
extracted voter id string (`ocr : Option (Except String String)`,
`none` when no image was supplied).  Python's falsiness checks on the
inputs (line 160) and on the extracted id (line 175) are kept; `.upper()`
is modelled by `upperStr` (ASCII case folding). -/
def app_verify_voter_id (st : AppState) (voter_id : Option String)
    (booth_id : Option Nat) (ocr : Option (Except String String))
    (bt : BCTimes) : AppState × Nat :=
  match voter_id, booth_id with
  | some vid, some booth =>
    if vid = "" ∨ booth = 0 then (st, 400)
    else
      match ocr with
      | some (.error _) => (st, 400)     -- OCR verification failed
      | some (.ok extracted) =>
        if extracted ≠ "" ∧ upperStr extracted ≠ upperStr vid then (st, 400)
        else id_lookup st vid booth bt
      | none => id_lookup st vid booth bt
  | _, _ => (st, 400)

/-- Shared tail of `/api/voter/verify-face` (app.py lines 321-395):
given the computed `face_result`, either reject (400 on pipeline
failure), advance the session and append to the blockchain (200), or
log an `identity_mismatch` fraud attempt (403). -/
def face_decide (st : AppState) (voter : Voter) (rec : VoteRecord)
    (face_result : LivenessResult) (bt : BCTimes) : AppState × Nat :=
  if !face_result.success then (st, 400)
  else if face_result.verified then
    let records' := updateFirst (·.voter_uuid = voter.uuid)
      (fun r => { r with face_verified := true }) st.vote_records
    let (bc', _) := demo_record_verification st.bc voter.uuid voter.voter_id
      rec.polling_booth_id "face_verification" bt
    ({ st with vote_records := records', bc := bc' }, 200)
  else
    ({ st with frauds := st.frauds ++
        [⟨voter.voter_id, rec.polling_booth_id, "identity_mismatch"⟩] }, 403)

/-- `/api/voter/verify-face` (app.py lines 250-399).  External
collaborators are represented by their outcomes: `img` is the face
pipeline evaluation of the submitted image (`none` when the field is
missing or not a `data:image/` URL), `storage_match` is the
`match_face_from_storage` outcome (`some c` exactly when it returned
`success ∧ verified` with confidence `c`), and `encode_res` the
`encode_face_for_storage` outcome.  When the voter has no stored
encoding but a storage match was found, the code re-runs
`verify_face_with_liveness` with `None` as stored encoding — whose
comparison degenerates to similarity 0 — and overrides only the
confidence fields of the result (lines 299-304), not `verified`. -/
def app_verify_face (st : AppState) (voter_uuid : Option String)
    (img : Option FaceEval) (ld : Option LivenessData)
    (storage_match : Option ℚ) (encode_res : Except String String)
    (bt : BCTimes) : AppState × Nat :=
  match voter_uuid, img with
  | some u, some ev =>
    match findVoterByUuid st u with
    | none => (st, 404)
    | some voter =>
      match findRecordByUuid st u with
      | none => (st, 400)
      | some rec =>
        if !rec.id_verified then (st, 400)
        else
          match voter.face_encoding with
          | some _ => face_decide st voter rec (verify_face_with_liveness ev ld) bt
          | none =>
            match storage_match with
            | some c =>
              let fr := verify_face_with_liveness (nullStored ev) ld
              face_decide st voter rec
                { fr with face_confidence := c, confidence := c } bt
            | none =>
              match encode_res with
              | .error _ => (st, 400)
              | .ok enc =>
                let voters' := updateFirst (·.uuid = u)
                  (fun v => { v with face_encoding := some enc }) st.voters
                face_decide { st with voters := voters' } voter rec
                  (verify_face_with_liveness ev ld) bt
  | _, _ => (st, 400)
where
  /-- `verify_face(None, live)`: upstream processing of the live image
  still runs, but the comparison against the `None` encoding returns the
  null-encoding dictionary (similarity 0, confidence 0, no match). -/
  nullStored : FaceEval → FaceEval
    | .err m => .err m
    | .sim _ => .sim 0

/-- The hard-coded first-enrollment iris result (app.py lines 439-452);
the stub dictionaries carry no similarity/distance keys, modelled as 0. -/
def demo_iris_result : IrisResult :=
  ⟨true, true, 92/100,
   some ⟨true, 0, 0, 92/100⟩,
   some ⟨true, 0, 0, 90/100⟩⟩

/-- Lines 454-497 of `verify_iris`: given the computed iris result,
reject (400) on pipeline failure, advance the session when verified
with confidence strictly above 0.85 (200), otherwise log an
`identity_mismatch` fraud attempt (403). -/
def iris_decide (st : AppState) (voter : Voter) (rec : VoteRecord)
    (ir : IrisResult) (now : Nat) (bt : BCTimes) : AppState × Nat :=
  if !ir.success then (st, 400)
  else if ir.verified ∧ ir.confidence > 85/100 then
    let records' := updateFirst (·.voter_uuid = voter.uuid)
      (fun r => { r with iris_verified := true, verification_completed := some now })
      st.vote_records
    let (bc', _) := demo_record_verification st.bc voter.uuid voter.voter_id
      rec.polling_booth_id "iris_verification" bt
    ({ st with vote_records := records', bc := bc' }, 200)
  else
    ({ st with frauds := st.frauds ++
        [⟨voter.voter_id, rec.polling_booth_id, "identity_mismatch"⟩] }, 403)

/-- `/api/voter/verify-iris` (app.py lines 401-501).  `img` is the iris
pipeline evaluation of the submitted image (`none` when missing),
`encode_res` the `encode_iris_for_storage` outcome used on first
enrollment.  The step passes exactly when the iris result is verified
with confidence strictly above 0.85; otherwise an `identity_mismatch`
fraud attempt is logged. -/
def app_verify_iris (st : AppState) (voter_uuid : Option String)
    (img : Option IrisEval) (encode_res : Except String String)
    (now : Nat) (bt : BCTimes) : AppState × Nat :=
  match voter_uuid, img with
  | some u, some ev =>
    match findVoterByUuid st u with
    | none => (st, 404)
    | some voter =>
      match findRecordByUuid st u with
      | none => (st, 400)
      | some rec =>
        if !rec.face_verified then (st, 400)
        else
          match voter.iris_template with
          | some _ => iris_decide st voter rec (iris_verify ev) now bt
          | none =>
            match encode_res with
            | .error _ => (st, 400)
            | .ok tmpl =>
              let voters' := updateFirst (·.uuid = u)
                (fun v => { v with iris_template := some tmpl }) st.voters
              iris_decide { st with voters := voters' } voter rec demo_iris_result now bt
  | _, _ => (st, 400)

/-- `/api/voter/cast-vote` (app.py lines 503-553).  Note: unlike
`verify-id`, this endpoint performs no `has_voted` check of its own,
and the blockchain layer's already-voted check exempts the
`vote_cast` step.  `nonce` models the random fallback hash string of
line 534. -/
def app_cast_vote (st : AppState) (voter_uuid : Option String)
    (now : Nat) (bt : BCTimes) (nonce : Nat) : AppState × Nat :=
  match voter_uuid with
  | none => (st, 400)
  | some u =>
    match findVoterByUuid st u with
    | none => (st, 404)
    | some voter =>
      match findRecordByUuid st u with
      | none => (st, 400)
      | some rec =>
        if !rec.iris_verified then (st, 400)
        else
          let voters' := updateFirst (·.uuid = u)
            (fun v => { v with has_voted := true, voted_at := some now }) st.voters
          let (bc', bres) := demo_record_verification st.bc voter.uuid voter.voter_id
            rec.polling_booth_id "vote_cast" bt
          let storedHash := (bres.blockchain_hash).getD (.nonce nonce)
          let records' := updateFirst (·.voter_uuid = u)
            (fun r => { r with vote_cast_at := some now,
                               blockchain_hash := some storedHash }) st.vote_records
          ({ st with voters := voters', vote_records := records', bc := bc' }, 200)

/-! ### Concrete scenario states used by the theorems below -/

/-- The blockchain state after one id-verification append for voter
`"u"` from an empty demo storage. -/
def c3_st1 : BCState :=
  (demo_record_verification BCState.empty "u" "VID001" 1 "id_verification" ⟨0, 0, 0⟩).1

/-- The blockchain state after a further face-verification append for
the same voter. -/
def c3_st2 : BCState :=
  (demo_record_verification c3_st1 "u" "VID001" 1 "face_verification" ⟨5, 5, 5⟩).1

/-- The ledger entry a first id-verification append stores for voter
`"u"`. -/
def c3w_pair : String × BCVoteRecord :=
  ("u", ⟨"u", "VID001", 1, 0, true, false, false, false,
    some (generate_hash ⟨"u", "VID001", 1, 0, true, false, false, false, none, none⟩),
    none⟩)

/-! ### C1 scenario: a fully verified voter casts twice -/

/-- Voter VID001 at booth 1 with stored face and iris templates. -/
def c1_voter : Voter :=
  ⟨"VID001", "u1", "Rajesh Kumar", 1, some "enc", some "tmpl", false, none⟩

def c1_h1 : HashVal := .payload ⟨"u1", "VID001", 1, 0, true, false, false, false⟩

def c1_h2 : HashVal := .payload ⟨"u1", "VID001", 1, 0, true, true, false, false⟩

def c1_h3 : HashVal := .payload ⟨"u1", "VID001", 1, 0, true, true, true, false⟩

def c1_h4 : HashVal := .payload ⟨"u1", "VID001", 1, 0, true, true, true, true⟩

def c1_status : BCVoterStatus := ⟨"u1", "VID001", false, none, 1⟩

def c1_st0 : AppState := ⟨[c1_voter], [], [], ⟨[], [], []⟩⟩

def c1_bt : BCTimes := ⟨0, 0, 0⟩

def c1_rec1 : VoteRecord := ⟨"u1", "VID001", 1, true, false, false, none, none, none⟩

/-- State after a successful id verification. -/
def c1_st1 : AppState :=
  ⟨[c1_voter], [c1_rec1], [],
   ⟨[("u1", ⟨"u1", "VID001", 1, 0, true, false, false, false, some c1_h1, none⟩)],
    [("u1", c1_status)], []⟩⟩

def c1_rec2 : VoteRecord := ⟨"u1", "VID001", 1, true, true, false, none, none, none⟩

/-- State after a successful face verification. -/
def c1_st2 : AppState :=
  ⟨[c1_voter], [c1_rec2], [],
   ⟨[("u1", ⟨"u1", "VID001", 1, 0, true, true, false, false, some c1_h2, none⟩)],
    [("u1", c1_status)], []⟩⟩

def c1_rec3 : VoteRecord := ⟨"u1", "VID001", 1, true, true, true, none, some 0, none⟩

/-- State after a successful iris verification. -/
def c1_st3 : AppState :=
  ⟨[c1_voter], [c1_rec3], [],
   ⟨[("u1", ⟨"u1", "VID001", 1, 0, true, true, true, false, some c1_h3, none⟩)],
    [("u1", c1_status)], []⟩⟩

def c1_voter_voted : Voter :=
  ⟨"VID001", "u1", "Rajesh Kumar", 1, some "enc", some "tmpl", true, some 0⟩

def c1_rec4 : VoteRecord :=
  ⟨"u1", "VID001", 1, true, true, true, some c1_h4, some 0, some 0⟩

/-- State after the first (legitimate) vote cast. -/
def c1_cast1_st : AppState :=
  ⟨[c1_voter_voted], [c1_rec4], [],
   ⟨[("u1", ⟨"u1", "VID001", 1, 0, true, true, true, true, some c1_h4, none⟩)],
    [("u1", ⟨"u1", "VID001", true, some 0, 1⟩)], [(1, 1)]⟩⟩

def c1_voter_voted2 : Voter :=
  ⟨"VID001", "u1", "Rajesh Kumar", 1, some "enc", some "tmpl", true, some 1⟩

def c1_rec5 : VoteRecord :=
  ⟨"u1", "VID001", 1, true, true, true, some c1_h4, some 0, some 1⟩

/-- State after the second (duplicate) vote cast. -/
def c1_cast2_st : AppState :=
  ⟨[c1_voter_voted2], [c1_rec5], [],
   ⟨[("u1", ⟨"u1", "VID001", 1, 0, true, true, true, true, some c1_h4, none⟩)],
    [("u1", ⟨"u1", "VID001", true, some 0, 1⟩)], [(1, 2)]⟩⟩

/-- The prerequisite flag of a step is not yet met: either no session
row exists for the voter, or the required prior flag is still false. -/
def prereqMissing (st : AppState) (u : String) (flag : VoteRecord → Bool) : Prop :=
  match findRecordByUuid st u with
  | none => True
  | some r => flag r = false

/-- A registered voter with no open session row (out-of-order
scenario). -/
def c4_voter : Voter :=
  ⟨"VID002", "u2", "Priya Sharma", 1, some "enc", some "tmpl", false, none⟩

def c4_st : AppState := ⟨[c4_voter], [], [], ⟨[], [], []⟩⟩

def c4_bt : BCTimes := ⟨0, 0, 0⟩

/-- A voter with a session row whose id step is done (face threshold
scenario). -/
def c5_voter : Voter :=
  ⟨"VID003", "u3", "Amit Singh", 1, some "enc", some "tmpl", false, none⟩

def c5_rec : VoteRecord := ⟨"u3", "VID003", 1, true, false, false, none, none, none⟩

def c5_st : AppState := ⟨[c5_voter], [c5_rec], [], ⟨[], [], []⟩⟩

def c5_bt : BCTimes := ⟨0, 0, 0⟩

/-- A voter with a session row whose face step is done (iris decision
scenario). -/
def c7_voter : Voter :=
  ⟨"VID004", "u4", "Sunita Devi", 1, some "enc", some "tmpl", false, none⟩

def c7_rec : VoteRecord := ⟨"u4", "VID004", 1, true, true, false, none, none, none⟩

def c7_st : AppState := ⟨[c7_voter], [c7_rec], [], ⟨[], [], []⟩⟩

def c7_bt : BCTimes := ⟨0, 0, 0⟩

/-- A registered voter for the id-step scenario. -/
def c8_voter : Voter := ⟨"VID001", "u8", "Rajesh Kumar", 1, none, none, false, none⟩

def c8_st : AppState := ⟨[c8_voter], [], [], ⟨[], [], []⟩⟩

def c8_bt : BCTimes := ⟨0, 0, 0⟩

/-! ## Helper lemmas -/

theorem lookupA_mem {κ α : Type} [DecidableEq κ] {l : List (κ × α)} {k : κ} {v : α}
    (h : lookupA l k = some v) : (k, v) ∈ l := by
  induction l with
  | nil => simp [lookupA] at h
  | cons q t ih =>
    obtain ⟨a, b⟩ := q
    simp only [lookupA] at h
    split at h
    · next ha =>
      obtain rfl := ha
      obtain rfl : b = v := by injection h
      exact List.mem_cons_self _ _
    · exact List.mem_cons_of_mem _ (ih h)

theorem mem_insertA {κ α : Type} [DecidableEq κ] {l : List (κ × α)} {k : κ} {v : α}
    {p : κ × α} (h : p ∈ insertA l k v) : p = (k, v) ∨ p ∈ l := by
  induction l with
  | nil =>
    simp only [insertA, List.mem_singleton] at h
    exact Or.inl h
  | cons q t ih =>
    obtain ⟨a, b⟩ := q
    simp only [insertA] at h
    split at h
    · rcases List.mem_cons.mp h with h1 | h1
      · exact Or.inl h1
      · exact Or.inr (List.mem_cons_of_mem _ h1)
    · rcases List.mem_cons.mp h with h1 | h1
      · exact Or.inr (h1 ▸ List.mem_cons_self _ _)
      · rcases ih h1 with h2 | h2
        · exact Or.inl h2
        · exact Or.inr (List.mem_cons_of_mem _ h2)

/-- `verify_face` on a completed comparison never reports an upstream
failure. -/
theorem verify_face_sim_success (s : ℚ) : (verify_face (.sim s)).success = true := by
  rw [verify_face]
  split <;> rfl

/-- `compare_faces_basic` above similarity 0.2: match with boosted
confidence. -/
theorem compare_faces_basic_high (s : ℚ) (h : 1/5 < s) :
    compare_faces_basic s = ⟨true, s, 1 - s, min 1 (s * (3/2))⟩ := by
  simp only [compare_faces_basic]
  rw [if_pos h]

/-- `compare_faces_basic` between similarity 0.1 and 0.2: forced match
with fallback confidence 0.5. -/
theorem compare_faces_basic_mid (s : ℚ) (h1 : ¬ 1/5 < s) (h2 : 1/10 < s) :
    compare_faces_basic s = ⟨true, s, 1 - s, 1/2⟩ := by
  simp only [compare_faces_basic]
  rw [if_neg h1, if_pos h2]

/-- `verify_face` above similarity 0.2: verified with the boosted
confidence. -/
theorem verify_face_sim_high (s : ℚ) (h : 1/5 < s) :
    verify_face (.sim s) = ⟨true, true, min 1 (s * (3/2)), s⟩ := by
  have hc := compare_faces_basic_high s h
  simp only [verify_face, hc]
  have hd : decide ((min 1 (s * (3/2)) : ℚ) ≥ 1/5) = true :=
    decide_eq_true (le_min (by norm_num) (by nlinarith))
  rw [hd]
  simp

/-- `verify_face` between similarity 0.1 and 0.2: verified with
confidence 0.5. -/
theorem verify_face_sim_mid (s : ℚ) (h1 : ¬ 1/5 < s) (h2 : 1/10 < s) :
    verify_face (.sim s) = ⟨true, true, 1/2, s⟩ := by
  have hc := compare_faces_basic_mid s h1 h2
  simp only [verify_face, hc]
  have hd : decide ((1/2 : ℚ) ≥ 1/5) = true := decide_eq_true (by norm_num)
  rw [hd]
  simp

/-! ## Claims -/

/-- C10: for every call of `verify_face_with_liveness` in which no
liveness data is provided (the request field absent or an empty dict,
both falsy in Python), the computed liveness score is exactly 0, so the
combined verification is rejected no matter how high the face
confidence is. -/
theorem C10_missing_liveness_rejected (ev : FaceEval) :
    (verify_face_with_liveness ev none).liveness = 0 ∧
    (verify_face_with_liveness ev none).verified = false := by
  cases ev with
  | err m => exact ⟨rfl, rfl⟩
  | sim s =>
    have hs := verify_face_sim_success s
    rw [verify_face_with_liveness, hs]
    have h30 : decide ((liveness_score none) ≥ 3/10) = false :=
      decide_eq_false (by norm_num [liveness_score])
    simp [liveness_score, h30]

/-- C9 counterexample: at similarity 1/4 the base face verification
reports `verified = true` but confidence 3/8, which is below the 0.5
the claim asserts. -/
theorem C9_counterexample :
    (verify_face (.sim (1/4))).verified = true ∧
    (verify_face (.sim (1/4))).confidence = 3/8 ∧
    ¬ ((1/2 : ℚ) ≤ (verify_face (.sim (1/4))).confidence) := by
  rw [verify_face_sim_high (1/4) (by norm_num)]
  norm_num [min_def]

/-- C9 amended: in the base face verification, every comparison that
succeeds with similarity strictly greater than 0.1 is reported as
`verified = true` with confidence strictly greater than 0.3 (0.5
exactly when the similarity is at most 0.2, and `min 1 (1.5 * s)`
above it). -/
theorem C9_similarity_above_tenth_forces_pass (s : ℚ) (h : 1/10 < s) :
    (verify_face (.sim s)).verified = true ∧
    3/10 < (verify_face (.sim s)).confidence := by
  by_cases h2 : (1/5 : ℚ) < s
  · rw [verify_face_sim_high s h2]
    refine ⟨rfl, lt_min (by norm_num) (by nlinarith)⟩
  · rw [verify_face_sim_mid s h2 h]
    norm_num

/-- Witness for the C9 amended claim at similarity 1/4. -/
theorem C9_similarity_above_tenth_forces_pass_witness :
    (verify_face (.sim (1/4))).verified = true ∧
    3/10 < (verify_face (.sim (1/4))).confidence :=
  C9_similarity_above_tenth_forces_pass (1/4) (by norm_num)

/-- C6 counterexample: with head movement, two blinks and a
client-reported score of 10, the liveness score is 3.7, above 1.0 —
the weighted sum is not capped. -/
theorem C6_counterexample :
    liveness_score (some ⟨true, 2, 10⟩) = 37/10 ∧
    ¬ (liveness_score (some ⟨true, 2, 10⟩) ≤ 1) := by
  norm_num [liveness_score]

/-- C6 amended: the liveness score is at most 1.0 whenever the
client-reported score is at most 1 (the head-movement and blink terms
contribute at most 0.3 + 0.4); for larger client scores no cap is
applied. -/
theorem C6_liveness_bounded_for_bounded_client_score (d : LivenessData)
    (h : d.score ≤ 1) : liveness_score (some d) ≤ 1 := by
  simp only [liveness_score]
  split_ifs <;> linarith

/-- Witness for the C6 amended claim. -/
theorem C6_liveness_bounded_for_bounded_client_score_witness :
    liveness_score (some ⟨true, 2, 1⟩) ≤ 1 :=
  C6_liveness_bounded_for_bounded_client_score ⟨true, 2, 1⟩ (by norm_num)

/-- C2: recording a verification step computes the digest and then
overwrites the record's timestamp with a fresh `utcnow()` reading
(blockchain_integration.py lines 138-139), so whenever the two clock
readings differ — the generic case at microsecond resolution —
`verify_vote_integrity` recomputes a different digest and returns
false with no tampering at all.  When the two readings happen to
coincide it returns true, which is the intended behavior. -/
theorem C2_timestamp_overwrite_breaks_integrity :
    (demo_record_verification BCState.empty "u" "VID001" 1 "id_verification"
        ⟨0, 0, 1⟩).2.success = true ∧
    verify_vote_integrity
      (demo_record_verification BCState.empty "u" "VID001" 1 "id_verification"
        ⟨0, 0, 1⟩).1 "u" = false ∧
    verify_vote_integrity
      (demo_record_verification BCState.empty "u" "VID001" 1 "id_verification"
        ⟨0, 0, 0⟩).1 "u" = true := by
  refine ⟨by decide, by decide, by decide⟩

/-- C3 counterexample: after a second append for the same voter, the
stored entry's `previous_hash` is still the root sentinel `None`
instead of the payload hash the immediately preceding entry carried —
`previous_hash` is initialized to `None` (blockchain_integration.py
line 93) and never assigned anywhere. -/
theorem C3_counterexample :
    (lookupA c3_st2.votes "u").map BCVoteRecord.previous_hash = some none ∧
    (lookupA c3_st1.votes "u").map BCVoteRecord.blockchain_hash ≠ some none ∧
    (lookupA c3_st2.votes "u").map BCVoteRecord.previous_hash ≠
      (lookupA c3_st1.votes "u").map BCVoteRecord.blockchain_hash := by
  refine ⟨by decide, by decide, by decide⟩

/-- C3 amended: the `previous_hash` field of every stored demo record
is always the root sentinel `None`: it is preserved by every append and
never populated from the prior entry's payload hash. -/
theorem C3_previous_hash_always_none (st : BCState)
    (h : ∀ p ∈ st.votes, (Prod.snd p).previous_hash = none)
    (uuid vid : String) (booth : Nat) (step : String) (bt : BCTimes) :
    ∀ p ∈ (demo_record_verification st uuid vid booth step bt).1.votes,
      (Prod.snd p).previous_hash = none := by
  intro p hp
  have hprev : ((lookupA st.votes uuid).getD
      ⟨uuid, vid, booth, bt.tDefault, false, false, false, false, none, none⟩).previous_hash
      = none := by
    cases hq : lookupA st.votes uuid with
    | none => rfl
    | some r => simpa using h _ (lookupA_mem hq)
  have store : ∀ (vr : BCVoteRecord) (vs : BCVoterStatus) (isCast : Bool),
      p ∈ (demo_store st vr vs bt isCast).1.votes →
      vr.previous_hash = none → (Prod.snd p).previous_hash = none := by
    intro vr vs isCast hmem hvr
    simp only [demo_store] at hmem
    rcases mem_insertA hmem with rfl | hmem
    · simpa using hvr
    · exact h _ hmem
  simp only [demo_record_verification] at hp
  split at hp
  · exact h p hp
  · split at hp
    · exact store _ _ _ hp hprev
    · split at hp
      · exact store _ _ _ hp hprev
      · split at hp
        · exact store _ _ _ hp hprev
        · split at hp
          · split at hp
            · exact store _ _ _ hp hprev
            · exact h p hp
          · exact h p hp

/-- Witness for the C3 amended claim: the record stored by a first
id-verification append keeps `previous_hash = None`. -/
theorem C3_previous_hash_always_none_witness :
    (Prod.snd c3w_pair).previous_hash = none :=
  C3_previous_hash_always_none BCState.empty (by simp [BCState.empty])
    "u" "VID001" 1 "id_verification" ⟨0, 0, 0⟩ c3w_pair (by decide)

theorem c1_step1 :
    app_verify_voter_id c1_st0 (some "VID001") (some 1) none c1_bt = (c1_st1, 200) := by
  decide

/-- Face evaluation at similarity 47/75 (confidence exactly 0.94) with
head movement and two blinks (liveness 0.7). -/
theorem c1_face_result :
    verify_face_with_liveness (.sim (47/75)) (some ⟨true, 2, 0⟩) =
      ⟨true, true, 47/50, 7/10, 47/50⟩ := by
  rw [verify_face_with_liveness, verify_face_sim_high (47/75) (by norm_num)]
  norm_num [liveness_score, min_def]

theorem c1_step2 :
    app_verify_face c1_st1 (some "u1") (some (.sim (47/75))) (some ⟨true, 2, 0⟩)
      none (.ok "e") c1_bt = (c1_st2, 200) := by
  have hv : findVoterByUuid c1_st1 "u1" = some c1_voter := by decide
  have hr : findRecordByUuid c1_st1 "u1" = some c1_rec1 := by decide
  simp only [app_verify_face, hv, hr, c1_rec1, c1_voter]
  rw [c1_face_result]
  decide

/-- Iris evaluation with both eyes at distance 0.1. -/
theorem c1_iris_result :
    iris_verify (.eyes (.dist (1/10)) (.dist (1/10))) =
      ⟨true, true, 9/10, some ⟨true, 9/10, 1/10, 9/10⟩, some ⟨true, 9/10, 1/10, 9/10⟩⟩ := by
  norm_num [iris_verify, eyeResult]

theorem c1_step3 :
    app_verify_iris c1_st2 (some "u1") (some (.eyes (.dist (1/10)) (.dist (1/10))))
      (.ok "t") 0 c1_bt = (c1_st3, 200) := by
  have hv : findVoterByUuid c1_st2 "u1" = some c1_voter := by decide
  have hr : findRecordByUuid c1_st2 "u1" = some c1_rec2 := by decide
  simp only [app_verify_iris, hv, hr, c1_rec2, c1_voter]
  rw [c1_iris_result]
  simp only [iris_decide]
  rw [if_neg (by decide : ¬ ((!true : Bool) = true))]
  rw [if_pos (show True ∧ (9/10 : ℚ) > 85/100 from ⟨trivial, by norm_num⟩)]
  decide

theorem c1_step4 :
    app_cast_vote c1_st3 (some "u1") 0 c1_bt 99 = (c1_cast1_st, 200) := by
  decide

theorem c1_step5 :
    app_cast_vote c1_cast1_st (some "u1") 1 c1_bt 100 = (c1_cast2_st, 200) := by
  decide

/-- C1: the code violates the single-vote invariant at the cast-vote
endpoint.  After voter VID001 completes all three verification steps
and casts successfully (`has_voted = true`), a second cast-vote request
is accepted again with status 200 — app.py's `cast_vote` never checks
`has_voted`, and the blockchain layer's already-voted check exempts the
`vote_cast` step (blockchain_integration.py line 106) — no
`duplicate_vote` fraud event is recorded, and the booth's vote total on
the demo ledger is incremented a second time. -/
theorem C1_second_cast_vote_accepted :
    app_verify_voter_id c1_st0 (some "VID001") (some 1) none c1_bt = (c1_st1, 200) ∧
    app_verify_face c1_st1 (some "u1") (some (.sim (47/75))) (some ⟨true, 2, 0⟩)
      none (.ok "e") c1_bt = (c1_st2, 200) ∧
    app_verify_iris c1_st2 (some "u1") (some (.eyes (.dist (1/10)) (.dist (1/10))))
      (.ok "t") 0 c1_bt = (c1_st3, 200) ∧
    app_cast_vote c1_st3 (some "u1") 0 c1_bt 99 = (c1_cast1_st, 200) ∧
    (findVoterByUuid c1_cast1_st "u1").map Voter.has_voted = some true ∧
    app_cast_vote c1_cast1_st (some "u1") 1 c1_bt 100 = (c1_cast2_st, 200) ∧
    c1_cast2_st.frauds = [] ∧
    lookupA c1_cast2_st.bc.boothStats 1 = some 2 :=
  ⟨c1_step1, c1_step2, c1_step3, c1_step4, by decide, c1_step5, by decide, by decide⟩

/-- C4 counterexample: submitting the face step for a voter whose id
step has not happened is rejected with 400 and the state — including
the fraud log — is completely unchanged: no FraudEvent is recorded for
the out-of-order attempt, contrary to the claim. -/
theorem C4_counterexample :
    app_verify_face c4_st (some "u2") (some (.sim 1)) none none (.ok "e") c4_bt
      = (c4_st, 400) ∧
    (app_verify_face c4_st (some "u2") (some (.sim 1)) none none (.ok "e") c4_bt).1.frauds
      = [] := by
  refine ⟨by decide, by decide⟩

/-- C4 amended: a step submitted before its prerequisite flag is set
(face before id, iris before face, cast before iris) is rejected with
status 400 and leaves the entire state — session, fraud log, ledger —
unchanged; in particular no FraudEvent is recorded for the out-of-order
attempt. -/
theorem C4_out_of_order_rejected_without_fraud (st : AppState) (u : String)
    (v : Voter) (hv : findVoterByUuid st u = some v)
    (ev : FaceEval) (ld : Option LivenessData) (sm : Option ℚ)
    (er ier : Except String String) (iev : IrisEval) (now : Nat) (bt : BCTimes)
    (nonce : Nat) :
    (prereqMissing st u (fun r => r.id_verified) →
      app_verify_face st (some u) (some ev) ld sm er bt = (st, 400)) ∧
    (prereqMissing st u (fun r => r.face_verified) →
      app_verify_iris st (some u) (some iev) ier now bt = (st, 400)) ∧
    (prereqMissing st u (fun r => r.iris_verified) →
      app_cast_vote st (some u) now bt nonce = (st, 400)) := by
  refine ⟨?_, ?_, ?_⟩ <;> intro hpre
  · simp only [app_verify_face, hv]
    cases hrec : findRecordByUuid st u with
    | none => simp [hrec]
    | some r =>
      have hflag : r.id_verified = false := by
        simpa [prereqMissing, hrec] using hpre
      simp [hrec, hflag]
  · simp only [app_verify_iris, hv]
    cases hrec : findRecordByUuid st u with
    | none => simp [hrec]
    | some r =>
      have hflag : r.face_verified = false := by
        simpa [prereqMissing, hrec] using hpre
      simp [hrec, hflag]
  · simp only [app_cast_vote, hv]
    cases hrec : findRecordByUuid st u with
    | none => simp [hrec]
    | some r =>
      have hflag : r.iris_verified = false := by
        simpa [prereqMissing, hrec] using hpre
      simp [hrec, hflag]

/-- Witness for the C4 amended claim at a voter with no session row. -/
theorem C4_out_of_order_rejected_without_fraud_witness :
    app_verify_iris c4_st (some "u2") (some (.eyes (.dist 0) (.dist 0))) (.ok "t") 0 c4_bt
      = (c4_st, 400) ∧
    app_cast_vote c4_st (some "u2") 0 c4_bt 0 = (c4_st, 400) :=
  have H := C4_out_of_order_rejected_without_fraud c4_st "u2" c4_voter (by decide)
    (.sim 1) none none (.ok "e") (.ok "t") (.eyes (.dist 0) (.dist 0)) 0 c4_bt 0
  ⟨H.2.1 trivial, H.2.2 trivial⟩

/-- Face evaluation exactly at both thresholds: similarity 47/75 gives
confidence exactly 0.94 (47/50), head movement alone gives liveness
exactly 0.3, and the combined verification passes. -/
theorem c5_boundary_face :
    verify_face_with_liveness (.sim (47/75)) (some ⟨true, 0, 0⟩) =
      ⟨true, true, 47/50, 3/10, 47/50⟩ := by
  rw [verify_face_with_liveness, verify_face_sim_high (47/75) (by norm_num)]
  norm_num [liveness_score, min_def]

/-- C5: with a stored face encoding and the id step completed, a face
submission whose confidence equals the 0.94 threshold exactly
(similarity 47/75) and whose liveness score equals the 0.30 threshold
exactly passes with status 200; any submission whose pipeline succeeded
but whose face confidence is strictly below 0.94 or whose liveness
score is strictly below 0.30 fails with status 403, appends exactly one
`identity_mismatch` fraud attempt, and changes nothing else. -/
theorem C5_face_threshold_boundary (st : AppState) (u : String)
    (v : Voter) (r : VoteRecord)
    (hv : findVoterByUuid st u = some v) (he : ∃ e, v.face_encoding = some e)
    (hr : findRecordByUuid st u = some r) (hid : r.id_verified = true)
    (bt : BCTimes) :
    (app_verify_face st (some u) (some (.sim (47/75))) (some ⟨true, 0, 0⟩)
        none (.ok "") bt).2 = 200 ∧
    (∀ (ev : FaceEval) (ld : Option LivenessData),
      (verify_face ev).success = true →
      ((verify_face ev).confidence < 94/100 ∨ liveness_score ld < 3/10) →
      app_verify_face st (some u) (some ev) ld none (.ok "") bt =
        ({ st with frauds := st.frauds ++
            [⟨v.voter_id, r.polling_booth_id, "identity_mismatch"⟩] }, 403)) := by
  obtain ⟨e, he⟩ := he
  constructor
  · simp only [app_verify_face, hv, hr, hid, he]
    rw [c5_boundary_face]
    simp [face_decide]
  · intro ev ld hsucc hlt
    have hfinal : ((verify_face ev).verified &&
        decide ((verify_face ev).confidence ≥ 94/100) &&
        decide (liveness_score ld ≥ 3/10)) = false := by
      rcases hlt with hlt | hlt
      · have hd : decide ((verify_face ev).confidence ≥ 94/100) = false :=
          decide_eq_false (not_le.mpr hlt)
        simp [hd]
      · have hd : decide (liveness_score ld ≥ 3/10) = false :=
          decide_eq_false (not_le.mpr hlt)
        simp [hd]
    have hfr : verify_face_with_liveness ev ld =
        ⟨true, false, (verify_face ev).confidence, liveness_score ld, 0⟩ := by
      simp only [verify_face_with_liveness, hsucc, hfinal]
      simp
    simp only [app_verify_face, hv, hr, hid, he]
    rw [hfr]
    simp [face_decide]

/-- Witness for C5: the boundary submission passes with 200, and a
similarity 1/2 submission (confidence 0.75, below 0.94) fails with 403
and one `identity_mismatch` fraud event. -/
theorem C5_face_threshold_boundary_witness :
    (app_verify_face c5_st (some "u3") (some (.sim (47/75))) (some ⟨true, 0, 0⟩)
        none (.ok "") c5_bt).2 = 200 ∧
    app_verify_face c5_st (some "u3") (some (.sim (1/2))) (some ⟨true, 0, 0⟩)
        none (.ok "") c5_bt =
      ({ c5_st with frauds := c5_st.frauds ++
          [⟨c5_voter.voter_id, c5_rec.polling_booth_id, "identity_mismatch"⟩] }, 403) :=
  have H := C5_face_threshold_boundary c5_st "u3" c5_voter c5_rec (by decide)
    ⟨"enc", rfl⟩ (by decide) rfl c5_bt
  ⟨H.1, H.2 (.sim (1/2)) (some ⟨true, 0, 0⟩) (verify_face_sim_success (1/2))
    (Or.inl (by rw [verify_face_sim_high (1/2) (by norm_num)]; norm_num [min_def]))⟩

/-- `verify_iris` never reports an upstream failure once both eyes were
processed. -/
theorem iris_verify_eyes_success (l r : EyeEval) :
    (iris_verify (.eyes l r)).success = true := by
  simp only [iris_verify]
  split <;> rfl

/-- C7: an eye verifies exactly when its distance is strictly below the
eye-level threshold 0.3; the overall result is verified exactly when at
least one eye verifies; the reported confidence is the highest
confidence among verified eyes (0 when none); and the iris step
responds 200 exactly when the result is verified with confidence
strictly above 0.85 (else 403). -/
theorem C7_iris_decision_rule (st : AppState) (u : String)
    (v : Voter) (r : VoteRecord)
    (hv : findVoterByUuid st u = some v) (ht : ∃ t, v.iris_template = some t)
    (hr : findRecordByUuid st u = some r) (hface : r.face_verified = true)
    (dL dR : ℚ) (ier : Except String String) (now : Nat) (bt : BCTimes) :
    ((iris_verify (.eyes (.dist dL) (.dist dR))).left.map EyeOk.verified =
        some (decide (dL < 3/10))) ∧
    ((iris_verify (.eyes (.dist dL) (.dist dR))).right.map EyeOk.verified =
        some (decide (dR < 3/10))) ∧
    ((iris_verify (.eyes (.dist dL) (.dist dR))).verified =
        (decide (dL < 3/10) || decide (dR < 3/10))) ∧
    ((iris_verify (.eyes (.dist dL) (.dist dR))).confidence =
        max (if dL < 3/10 then 1 - dL else 0) (if dR < 3/10 then 1 - dR else 0)) ∧
    ((app_verify_iris st (some u) (some (.eyes (.dist dL) (.dist dR))) ier now bt).2 =
        if (iris_verify (.eyes (.dist dL) (.dist dR))).verified
            ∧ (iris_verify (.eyes (.dist dL) (.dist dR))).confidence > 85/100
        then 200 else 403) := by
  obtain ⟨t, ht⟩ := ht
  have happ : app_verify_iris st (some u) (some (.eyes (.dist dL) (.dist dR))) ier now bt =
      iris_decide st v r (iris_verify (.eyes (.dist dL) (.dist dR))) now bt := by
    simp only [app_verify_iris, hv, hr, hface, ht]
    rw [if_neg (by decide : ¬ ((!true : Bool) = true))]
  have hsucc := iris_verify_eyes_success (.dist dL) (.dist dR)
  have happ2 : (iris_decide st v r (iris_verify (.eyes (.dist dL) (.dist dR))) now bt).2 =
      if (iris_verify (.eyes (.dist dL) (.dist dR))).verified
          ∧ (iris_verify (.eyes (.dist dL) (.dist dR))).confidence > 85/100
      then 200 else 403 := by
    simp only [iris_decide, hsucc]
    rw [if_neg (by decide : ¬ ((!true : Bool) = true))]
    by_cases hc : ((iris_verify (.eyes (.dist dL) (.dist dR))).verified = true ∧
        (iris_verify (.eyes (.dist dL) (.dist dR))).confidence > 85/100)
    · rw [if_pos hc, if_pos hc]
    · rw [if_neg hc, if_neg hc]
  refine ⟨?_, ?_, ?_, ?_, by rw [happ]; exact happ2⟩
  · by_cases hL : dL < 3/10 <;> by_cases hR : dR < 3/10 <;>
      simp [iris_verify, eyeResult, hL, hR]
  · by_cases hL : dL < 3/10 <;> by_cases hR : dR < 3/10 <;>
      simp [iris_verify, eyeResult, hL, hR]
  · by_cases hL : dL < 3/10 <;> by_cases hR : dR < 3/10 <;>
      simp [iris_verify, eyeResult, hL, hR]
  · by_cases hL : dL < 3/10 <;> by_cases hR : dR < 3/10
    · simp [iris_verify, eyeResult, hL, hR]
    · simp [iris_verify, eyeResult, hL, hR,
        max_eq_left (show (0:ℚ) ≤ 1 - dL by linarith)]
    · simp [iris_verify, eyeResult, hL, hR,
        max_eq_right (show (0:ℚ) ≤ 1 - dR by linarith)]
    · simp [iris_verify, eyeResult, hL, hR]

/-- Witness for C7: left eye at distance 0.1 verifies, right eye at
distance 0.4 does not, and the step passes the 0.85 gate. -/
theorem C7_iris_decision_rule_witness :
    ((iris_verify (.eyes (.dist (1/10)) (.dist (2/5)))).verified =
        (decide ((1/10 : ℚ) < 3/10) || decide ((2/5 : ℚ) < 3/10))) ∧
    ((app_verify_iris c7_st (some "u4") (some (.eyes (.dist (1/10)) (.dist (2/5))))
        (.ok "t") 0 c7_bt).2 =
      if (iris_verify (.eyes (.dist (1/10)) (.dist (2/5)))).verified
          ∧ (iris_verify (.eyes (.dist (1/10)) (.dist (2/5)))).confidence > 85/100
      then 200 else 403) :=
  have H := C7_iris_decision_rule c7_st "u4" c7_voter c7_rec (by decide)
    ⟨"tmpl", rfl⟩ (by decide) rfl (1/10) (2/5) (.ok "t") 0 c7_bt
  ⟨H.2.2.1, H.2.2.2.2⟩

/-- C8: when a document image is supplied and OCR extracts a non-empty
identifier that differs from the claimed voter id case-insensitively,
the id step is rejected with 400 and no state change; when the
extracted identifier matches case-insensitively, the step behaves
exactly as if no image had been supplied; and with no image the step
passes (200) on a successful directory lookup of the voter at the
claimed booth alone, provided the voter has not already voted. -/
theorem C8_id_step_decision (st : AppState) (vid : String) (booth : Nat)
    (hvid : vid ≠ "") (hbooth : booth ≠ 0) (bt : BCTimes) :
    (∀ extracted : String, extracted ≠ "" → upperStr extracted ≠ upperStr vid →
      app_verify_voter_id st (some vid) (some booth) (some (.ok extracted)) bt
        = (st, 400)) ∧
    (∀ extracted : String, upperStr extracted = upperStr vid →
      app_verify_voter_id st (some vid) (some booth) (some (.ok extracted)) bt
        = app_verify_voter_id st (some vid) (some booth) none bt) ∧
    (∀ v : Voter,
      st.voters.find? (fun w => w.voter_id = vid ∧ w.polling_booth_id = booth) = some v →
      v.has_voted = false →
      (app_verify_voter_id st (some vid) (some booth) none bt).2 = 200) := by
  have hfals : ¬ (vid = "" ∨ booth = 0) := by
    rintro (h | h)
    · exact hvid h
    · exact hbooth h
  refine ⟨?_, ?_, ?_⟩
  · intro extracted h1 h2
    simp only [app_verify_voter_id]
    rw [if_neg hfals, if_pos ⟨h1, h2⟩]
  · intro extracted h2
    simp only [app_verify_voter_id]
    rw [if_neg hfals, if_neg (fun hcon => hcon.2 h2)]
    rw [if_neg hfals]
  · intro v hfind hvoted
    simp only [app_verify_voter_id]
    rw [if_neg hfals]
    simp only [id_lookup, hfind]
    rw [if_neg (by simp [hvoted])]

/-- Witness for C8 at voter VID001 of booth 1: a mismatching OCR
extraction is rejected, a lower-case matching extraction behaves like
the no-image call, and the no-image call passes. -/
theorem C8_id_step_decision_witness :
    app_verify_voter_id c8_st (some "VID001") (some 1) (some (.ok "XYZ9999")) c8_bt
      = (c8_st, 400) ∧
    app_verify_voter_id c8_st (some "VID001") (some 1) (some (.ok "vid001")) c8_bt
      = app_verify_voter_id c8_st (some "VID001") (some 1) none c8_bt ∧
    (app_verify_voter_id c8_st (some "VID001") (some 1) none c8_bt).2 = 200 :=
  have H := C8_id_step_decision c8_st "VID001" 1 (by decide) (by decide) c8_bt
  ⟨H.1 "XYZ9999" (by decide) (by decide),
   H.2.1 "vid001" (by decide),
   H.2.2 c8_voter (by decide) rfl⟩

end VoterAuth
